import Mathlib

/-!
Verification of the `ditto` repository (src/lib.rs, src/main.rs).

The repository exposes a single operation, `docx_to_pdf(input_path, output_path)`,
which validates the two paths, runs `create_dir_all` on the output path's parent,
spawns the external converter `soffice` with fixed arguments, checks that the
expected generated PDF exists, and renames it to the requested output path when
the two paths differ.

Shallow embedding:
* A path is modelled in Rust's component view (`RPath`): an `absolute` flag
  (Unix `RootDir`) plus the list of remaining components.  Rust's `PartialEq`
  on `Path`/`PathBuf` compares exactly this component decomposition, so
  structural equality of `RPath` is Rust path equality.
* The filesystem and the external process are modelled by an oracle (`World`)
  fixing the outcome of every observation the function makes.
* `docx_to_pdf` returns the result together with the trace of write effects
  (`create_dir_all`, process spawn, rename), in program order.
-/

namespace Ditto

/-- One component of a Unix path, as produced by Rust's `Path::components`
after the optional leading `RootDir` (tracked separately in `RPath`). -/
inductive Comp
  | curDir
  | parentDir
  | normal (s : String)
  deriving DecidableEq, Repr

/-- A path in Rust's component view: whether it has a root, and the component
list.  `String` models `OsStr` file names; genuinely non-UTF-8 byte content is
not representable here, so whether `to_str` succeeds on a path is supplied by
the `World` oracle below. -/
structure RPath where
  absolute : Bool
  comps : List Comp
  deriving DecidableEq, Repr

/-- Split a character list at every `/` (the pieces, separators dropped). -/
def splitOnSlash : List Char → List (List Char)
  | [] => [[]]
  | '/' :: rest => [] :: splitOnSlash rest
  | c :: rest =>
    match splitOnSlash rest with
    | [] => [[c]]
    | g :: gs => (c :: g) :: gs

/-- Parse one non-leading path piece the way Rust's component iterator does:
`.` is dropped, `..` is `ParentDir`, anything else is a `Normal` component. -/
def compOf (p : List Char) : Option Comp :=
  if p = ['.'] then none
  else if p = ['.', '.'] then some .parentDir
  else some (.normal (String.mk p))

/-- Parse a Unix path string into Rust's component view.  A leading `.` piece
is kept as `CurDir` exactly when the path has no root (Rust's
`include_cur_dir` rule); every other `.` piece is dropped; empty pieces
(repeated or trailing separators) are dropped. -/
def parsePath (s : String) : RPath :=
  let cs := s.data
  let okAbs : Bool := match cs with | '/' :: _ => true | _ => false
  let parts := (splitOnSlash cs).filter (fun p => p ≠ [])
  let comps :=
    match parts with
    | [] => []
    | p :: rest =>
      if okAbs = false ∧ p = ['.'] then Comp.curDir :: rest.filterMap compOf
      else (compOf p).toList ++ rest.filterMap compOf
  ⟨okAbs, comps⟩

/-- Render a component back to its textual form. -/
def Comp.str : Comp → String
  | .curDir => "."
  | .parentDir => ".."
  | .normal s => s

/-- Render a path as a string (the form handed to the spawned process after a
successful `to_str`).  The empty relative path renders as `""`. -/
def RPath.render (p : RPath) : String :=
  (if p.absolute then "/" else "") ++ String.intercalate "/" (p.comps.map Comp.str)

/-- Rust `Path::parent`: drop the last component; `none` when no components
remain (the empty path and root paths). -/
def RPath.parent (p : RPath) : Option RPath :=
  match p.comps with
  | [] => none
  | _ => some ⟨p.absolute, p.comps.dropLast⟩

/-- Rust `Path::file_name`: the last component when it is `Normal`. -/
def RPath.fileName (p : RPath) : Option String :=
  match p.comps.getLast? with
  | some (.normal s) => some s
  | _ => none

/-- Split a file name at its last `.`: `some (before, after)` when a dot
occurs, `none` otherwise (Rust's `rsplit_file_at_dot` core). -/
def lastDotSplit : List Char → Option (List Char × List Char)
  | [] => none
  | c :: rest =>
    match lastDotSplit rest with
    | some (b, a) => some (c :: b, a)
    | none => if c = '.' then some ([], rest) else none

/-- Rust `Path::file_stem`: the file name up to its last dot; the whole name
when there is no dot or when the only dot is leading. -/
def RPath.fileStem (p : RPath) : Option String :=
  p.fileName.map fun name =>
    if name = ".." then name
    else
      match lastDotSplit name.data with
      | none => name
      | some (b, _) => if b = [] then name else String.mk b

/-- Rust `PathBuf::push` (hence `Path::join`) of a single file-name piece, as
used for `output_dir.join(stem)`: the piece contains no separator, so it is
appended as one component, with the component rules applied (`.` disappears
unless the base path is the empty relative path, `..` is `ParentDir`). -/
def RPath.join1 (d : RPath) (name : String) : RPath :=
  if name = "." then
    if d.absolute = false ∧ d.comps = [] then ⟨false, [.curDir]⟩ else d
  else if name = ".." then ⟨d.absolute, d.comps ++ [.parentDir]⟩
  else ⟨d.absolute, d.comps ++ [.normal name]⟩

/-- Rust `Path::with_extension` for a nonempty extension (the code only uses
`"pdf"`): when the path has a file stem, the file name is replaced by
`stem ++ "." ++ ext`; when it has none the path is unchanged. -/
def RPath.withExtension (p : RPath) (ext : String) : RPath :=
  match p.fileStem with
  | none => p
  | some stem => ⟨p.absolute, p.comps.dropLast ++ [.normal (stem ++ "." ++ ext)]⟩

/-- The expected generated file path computed by the code after a successful
run of the tool: `output_dir.join(stem).with_extension("pdf")`
(src/lib.rs lines 102-104). -/
def expectedGenerated (output_dir : RPath) (stem : String) : RPath :=
  (output_dir.join1 stem).withExtension "pdf"

/-- Modelled from the spec wording only, for comparison with the code: "the
output directory joined with the input file's stem ... with `.pdf` appended". -/
def specExpectedGenerated (output_dir : RPath) (stem : String) : RPath :=
  output_dir.join1 (stem ++ ".pdf")

/-- Oracle fixing the outcome of every observation `docx_to_pdf` makes on the
filesystem and on the external process. -/
structure World where
  /-- `Path::exists` at the time of the precondition checks. -/
  pathExists : RPath → Bool
  /-- `Path::is_file`. -/
  isFile : RPath → Bool
  /-- `Path::is_dir`. -/
  isDir : RPath → Bool
  /-- Whether `to_str` succeeds on a path, i.e. whether the underlying OS
  bytes are valid UTF-8 (not representable in `RPath` itself). -/
  toStrOk : RPath → Bool
  /-- Whether `std::fs::create_dir_all` succeeds on a (nonempty) path. -/
  createDirOk : RPath → Bool
  /-- Outcome of `Command::status`: `none` when the spawn itself fails with an
  I/O error; `some c` when the process ran and `c` is `status.code()`
  (`none` inside when killed by a signal; `some 0` is the success status). -/
  spawnStatus : Option (Option Int)
  /-- `Path::exists` after the external tool has run. -/
  existsAfter : RPath → Bool
  /-- Whether `std::fs::rename` succeeds for a given source and target. -/
  renameOk : RPath → RPath → Bool

/-- `Path::to_str` under the oracle: the rendered string when the bytes are
valid UTF-8. -/
def toStr (w : World) (p : RPath) : Option String :=
  if w.toStrOk p then some p.render else none

/-- `std::fs::create_dir_all` outcome: Rust special-cases the empty path,
which always succeeds; otherwise the filesystem oracle decides. -/
def createDirAllOk (w : World) (d : RPath) : Bool :=
  if d = ⟨false, []⟩ then true else w.createDirOk d

/-- A write effect performed by `docx_to_pdf`, in program order. -/
inductive Effect
  | createDirAll (dir : RPath)
  | spawn (args : List String)
  | rename (src dst : RPath)
  deriving DecidableEq, Repr

/-- The distinct error outcomes of `docx_to_pdf`.  The code's error type is
`Box<dyn Error>`; each constructor corresponds to one distinct error value the
code can produce (its distinct message string, or a propagated `io::Error`). -/
inductive ConvError
  /-- "Input file not found: {path}" -/
  | inputNotFound (p : RPath)
  /-- "Input path is not a file: {path}" -/
  | inputNotAFile (p : RPath)
  /-- "Output path is a directory" -/
  | outputIsDirectory
  /-- "Output path has no parent directory" -/
  | noParentDir
  /-- the `io::Error` propagated by `?` from `create_dir_all` -/
  | createDirFailed
  /-- "Invalid output directory" (`output_dir.to_str()` returned `None`) -/
  | invalidOutputDir
  /-- "Invalid input path" (`input_path.to_str()` returned `None`) -/
  | invalidInputPath
  /-- the `io::Error` propagated by `?` from `Command::status` (launch failed) -/
  | spawnError
  /-- "Conversion failed with exit code: {:?}" -/
  | exitFailure (code : Option Int)
  /-- "Input file has no stem" -/
  | noStem
  /-- "Generated PDF not found at: {path}" -/
  | pdfNotFound (p : RPath)
  /-- the `io::Error` propagated by `?` from `std::fs::rename` -/
  | renameFailed
  deriving DecidableEq, Repr

/-- Whether an error is the "Conversion failed with exit code" error. -/
def ConvError.isExitFailure : ConvError → Bool
  | .exitFailure _ => true
  | _ => false

/-- Whether an effect is a process spawn. -/
def Effect.isSpawn : Effect → Bool
  | .spawn _ => true
  | _ => false

/-- Whether an effect is a rename. -/
def Effect.isRename : Effect → Bool
  | .rename _ _ => true
  | _ => false

/-- The fixed argument list handed to `soffice` (src/lib.rs lines 84-91). -/
def soArgs (dirStr inStr : String) : List String :=
  ["--headless", "--convert-to", "pdf", "--outdir", dirStr, inStr]

/-- Shallow embedding of `docx_to_pdf` (src/lib.rs lines 60-120), returning
the result together with the trace of write effects in program order.  The
branch structure mirrors the source line by line: existence check, file
check, output-directory check, parent resolution, `create_dir_all`, the two
`to_str` conversions (evaluated while building the argument list, output
directory first), the spawn, the exit-status check, the stem computation, the
generated-file check, and the conditional rename. -/
def docx_to_pdf (w : World) (input_path output_path : RPath) :
    Except ConvError Unit × List Effect :=
  if w.pathExists input_path = false then
    (.error (.inputNotFound input_path), [])
  else if w.isFile input_path = false then
    (.error (.inputNotAFile input_path), [])
  else if w.pathExists output_path && w.isDir output_path then
    (.error .outputIsDirectory, [])
  else
    match output_path.parent with
    | none => (.error .noParentDir, [])
    | some output_dir =>
      if createDirAllOk w output_dir = false then
        (.error .createDirFailed, [.createDirAll output_dir])
      else
        match toStr w output_dir with
        | none => (.error .invalidOutputDir, [.createDirAll output_dir])
        | some dirStr =>
          match toStr w input_path with
          | none => (.error .invalidInputPath, [.createDirAll output_dir])
          | some inStr =>
            match w.spawnStatus with
            | none =>
              (.error .spawnError,
                [.createDirAll output_dir, .spawn (soArgs dirStr inStr)])
            | some code =>
              if code ≠ some 0 then
                (.error (.exitFailure code),
                  [.createDirAll output_dir, .spawn (soArgs dirStr inStr)])
              else
                match input_path.fileStem with
                | none =>
                  (.error .noStem,
                    [.createDirAll output_dir, .spawn (soArgs dirStr inStr)])
                | some stem =>
                  if w.existsAfter (expectedGenerated output_dir stem) = false then
                    (.error (.pdfNotFound (expectedGenerated output_dir stem)),
                      [.createDirAll output_dir, .spawn (soArgs dirStr inStr)])
                  else if expectedGenerated output_dir stem ≠ output_path then
                    if w.renameOk (expectedGenerated output_dir stem) output_path
                        = false then
                      (.error .renameFailed,
                        [.createDirAll output_dir, .spawn (soArgs dirStr inStr),
                          .rename (expectedGenerated output_dir stem) output_path])
                    else
                      (.ok (),
                        [.createDirAll output_dir, .spawn (soArgs dirStr inStr),
                          .rename (expectedGenerated output_dir stem) output_path])
                  else
                    (.ok (),
                      [.createDirAll output_dir, .spawn (soArgs dirStr inStr)])

/-- A world in which everything succeeds: every path exists and is a file,
nothing is a directory, all paths are valid UTF-8, directory creation and
rename succeed, and the tool exits with status 0. -/
def okWorld : World where
  pathExists := fun _ => true
  isFile := fun _ => true
  isDir := fun _ => false
  toStrOk := fun _ => true
  createDirOk := fun _ => true
  spawnStatus := some (some 0)
  existsAfter := fun _ => true
  renameOk := fun _ _ => true

/-- `okWorld` with a nonexistent input path. -/
def noInputWorld : World := { okWorld with pathExists := fun _ => false }

/-- `okWorld` in which every existing path is a directory. -/
def allDirWorld : World := { okWorld with isDir := fun _ => true }

/-- `okWorld` in which launching the external process fails. -/
def spawnFailWorld : World := { okWorld with spawnStatus := none }

/-- `okWorld` in which the external process exits with code 3. -/
def exitFailWorld : World := { okWorld with spawnStatus := some (some 3) }

/-- `okWorld` in which no file exists after the tool has run. -/
def noPdfWorld : World := { okWorld with existsAfter := fun _ => false }

/-- `okWorld` in which no path is valid UTF-8. -/
def badUtf8World : World := { okWorld with toStrOk := fun _ => false }

/-- `okWorld` in which the directory `out` does not exist beforehand. -/
def freshDirWorld : World :=
  { okWorld with pathExists := fun p => if p = parsePath "out" then false else true }

deriving instance DecidableEq for Except

/-- `lastDotSplit` finds nothing exactly when the name has no dot. -/
theorem lastDotSplit_eq_none (cs : List Char) :
    lastDotSplit cs = none ↔ '.' ∉ cs := by
  induction cs with
  | nil => simp [lastDotSplit]
  | cons c rest ih =>
    rw [lastDotSplit]
    cases h : lastDotSplit rest with
    | none =>
      by_cases hc : c = '.'
      · simp [hc]
      · simp [hc, ih.mp h, Ne.symm hc]
    | some p =>
      have hmem : '.' ∈ rest := by
        by_contra hmem
        rw [ih.mpr hmem] at h
        exact Option.noConfusion h
      simp [hmem]

/-- Appending `".pdf"` is appending `"."` then `"pdf"`. -/
theorem append_dot_pdf (s : String) : s ++ "." ++ "pdf" = s ++ ".pdf" := by
  apply String.ext
  simp [String.data_append, List.append_assoc]

/-- A string ending in `".pdf"` is never the `"."` or `".."` component. -/
theorem append_pdf_ne (s : String) : s ++ ".pdf" ≠ "." ∧ s ++ ".pdf" ≠ ".." := by
  refine ⟨fun h => ?_, fun h => ?_⟩
  · have hlen := congrArg (fun t => t.data.length) h
    simp [String.data_append] at hlen
  · have hlen := congrArg (fun t => t.data.length) h
    simp [String.data_append] at hlen

/-- C3: for every nonexistent `input_path`, `docx_to_pdf` returns the
input-not-found error and performs no write effect (no directory creation, no
spawn, no rename), for every `output_path`. -/
theorem c3_input_not_found (w : World) (i o : RPath)
    (h : w.pathExists i = false) :
    docx_to_pdf w i o = (.error (.inputNotFound i), []) := by
  simp [docx_to_pdf, h]

/-- Witness for C3 at a concrete world and concrete paths. -/
theorem c3_witness :
    noInputWorld.pathExists (parsePath "a.docx") = false ∧
    docx_to_pdf noInputWorld (parsePath "a.docx") (parsePath "out/b.pdf") =
      (.error (.inputNotFound (parsePath "a.docx")), []) :=
  ⟨rfl, c3_input_not_found noInputWorld (parsePath "a.docx")
    (parsePath "out/b.pdf") rfl⟩

/-- C4: when the input exists and is a regular file and the output path is an
existing directory, `docx_to_pdf` returns the output-is-directory error with
no write effect; in particular the external converter is never spawned. -/
theorem c4_output_is_directory (w : World) (i o : RPath)
    (h1 : w.pathExists i = true) (h2 : w.isFile i = true)
    (h3 : w.pathExists o = true) (h4 : w.isDir o = true) :
    docx_to_pdf w i o = (.error .outputIsDirectory, []) ∧
    ((docx_to_pdf w i o).2).any Effect.isSpawn = false := by
  have hmain : docx_to_pdf w i o = (.error .outputIsDirectory, []) := by
    simp [docx_to_pdf, h1, h2, h3, h4]
  exact ⟨hmain, by rw [hmain]; rfl⟩

/-- Witness for C4 at a concrete world and concrete paths. -/
theorem c4_witness :
    docx_to_pdf allDirWorld (parsePath "a.docx") (parsePath "out") =
      (.error .outputIsDirectory, []) ∧
    ((docx_to_pdf allDirWorld (parsePath "a.docx") (parsePath "out")).2).any
      Effect.isSpawn = false :=
  c4_output_is_directory allDirWorld (parsePath "a.docx") (parsePath "out")
    rfl rfl rfl rfl

/-- C5: when the run reaches the spawn and the tool exits with a non-success
status `c` (non-zero, or killed by a signal), `docx_to_pdf` returns the
exit-failure error carrying exactly `c`, and no rename effect occurs. -/
theorem c5_exit_failure_no_rename (w : World) (i o d : RPath)
    (c : Option Int)
    (h1 : w.pathExists i = true) (h2 : w.isFile i = true)
    (h3 : (w.pathExists o && w.isDir o) = false)
    (hp : o.parent = some d) (hc : createDirAllOk w d = true)
    (ht1 : w.toStrOk d = true) (ht2 : w.toStrOk i = true)
    (hs : w.spawnStatus = some c) (hnz : c ≠ some 0) :
    (docx_to_pdf w i o).1 = .error (.exitFailure c) ∧
    ((docx_to_pdf w i o).2).any Effect.isRename = false := by
  have hmain : docx_to_pdf w i o =
      (.error (.exitFailure c),
        [.createDirAll d, .spawn (soArgs d.render i.render)]) := by
    simp [docx_to_pdf, toStr, h1, h2, h3, hp, hc, ht1, ht2, hs, hnz]
  rw [hmain]
  exact ⟨rfl, rfl⟩

/-- Witness for C5 at a concrete world and concrete paths, exit code 3. -/
theorem c5_witness :
    (docx_to_pdf exitFailWorld (parsePath "a.docx") (parsePath "out/b.pdf")).1 =
      .error (.exitFailure (some 3)) ∧
    ((docx_to_pdf exitFailWorld (parsePath "a.docx")
      (parsePath "out/b.pdf")).2).any Effect.isRename = false :=
  c5_exit_failure_no_rename exitFailWorld (parsePath "a.docx")
    (parsePath "out/b.pdf") (parsePath "out") (some 3)
    rfl rfl rfl (by decide) (by decide) rfl rfl rfl (by decide)

/-- C6: when the tool exits with status zero but no file exists at the
deterministically computed expected generated path, `docx_to_pdf` returns the
generated-PDF-not-found error naming that path. -/
theorem c6_output_not_produced (w : World) (i o d : RPath) (stem : String)
    (h1 : w.pathExists i = true) (h2 : w.isFile i = true)
    (h3 : (w.pathExists o && w.isDir o) = false)
    (hp : o.parent = some d) (hc : createDirAllOk w d = true)
    (ht1 : w.toStrOk d = true) (ht2 : w.toStrOk i = true)
    (hs : w.spawnStatus = some (some 0)) (hstem : i.fileStem = some stem)
    (hg : w.existsAfter (expectedGenerated d stem) = false) :
    (docx_to_pdf w i o).1 = .error (.pdfNotFound (expectedGenerated d stem)) := by
  simp [docx_to_pdf, toStr, h1, h2, h3, hp, hc, ht1, ht2, hs, hstem, hg]

/-- Witness for C6 at a concrete world and concrete paths. -/
theorem c6_witness :
    (docx_to_pdf noPdfWorld (parsePath "a.docx") (parsePath "out/b.pdf")).1 =
      .error (.pdfNotFound (expectedGenerated (parsePath "out") "a")) :=
  c6_output_not_produced noPdfWorld (parsePath "a.docx") (parsePath "out/b.pdf")
    (parsePath "out") "a" rfl rfl rfl (by decide) (by decide) rfl rfl rfl
    (by decide) rfl

/-- C7: when the run reaches the post-check with the generated file present,
the rename decision is syntactic path equality as given: if the expected
generated path equals the requested output path exactly, no rename effect
occurs and the call succeeds; if they differ as given, a rename from the
generated path to the output path is attempted. -/
theorem c7_rename_iff_paths_differ (w : World) (i o d : RPath) (stem : String)
    (h1 : w.pathExists i = true) (h2 : w.isFile i = true)
    (h3 : (w.pathExists o && w.isDir o) = false)
    (hp : o.parent = some d) (hc : createDirAllOk w d = true)
    (ht1 : w.toStrOk d = true) (ht2 : w.toStrOk i = true)
    (hs : w.spawnStatus = some (some 0)) (hstem : i.fileStem = some stem)
    (hg : w.existsAfter (expectedGenerated d stem) = true) :
    (expectedGenerated d stem = o →
      docx_to_pdf w i o =
        (.ok (), [.createDirAll d, .spawn (soArgs d.render i.render)]) ∧
      ((docx_to_pdf w i o).2).any Effect.isRename = false) ∧
    (expectedGenerated d stem ≠ o →
      Effect.rename (expectedGenerated d stem) o ∈ (docx_to_pdf w i o).2) := by
  constructor
  · intro heq
    have hg2 : w.existsAfter o = true := heq ▸ hg
    have hmain : docx_to_pdf w i o =
        (.ok (), [.createDirAll d, .spawn (soArgs d.render i.render)]) := by
      simp [docx_to_pdf, toStr, h1, h2, h3, hp, hc, ht1, ht2, hs, hstem, hg,
        hg2, heq]
    exact ⟨hmain, by rw [hmain]; rfl⟩
  · intro hne
    cases hr : w.renameOk (expectedGenerated d stem) o with
    | false =>
      have hmain : docx_to_pdf w i o =
          (.error .renameFailed,
            [.createDirAll d, .spawn (soArgs d.render i.render),
              .rename (expectedGenerated d stem) o]) := by
        simp [docx_to_pdf, toStr, h1, h2, h3, hp, hc, ht1, ht2, hs, hstem, hg,
          hne, hr]
      rw [hmain]
      simp
    | true =>
      have hmain : docx_to_pdf w i o =
          (.ok (),
            [.createDirAll d, .spawn (soArgs d.render i.render),
              .rename (expectedGenerated d stem) o]) := by
        simp [docx_to_pdf, toStr, h1, h2, h3, hp, hc, ht1, ht2, hs, hstem, hg,
          hne, hr]
      rw [hmain]
      simp

/-- Witness for C7 at a concrete world and concrete paths (differing-path
branch: the generated `out/a.pdf` is renamed to the requested `out/b.pdf`). -/
theorem c7_witness :
    (expectedGenerated (parsePath "out") "a" = parsePath "out/b.pdf" →
      docx_to_pdf okWorld (parsePath "a.docx") (parsePath "out/b.pdf") =
        (.ok (), [.createDirAll (parsePath "out"),
          .spawn (soArgs (parsePath "out").render (parsePath "a.docx").render)]) ∧
      ((docx_to_pdf okWorld (parsePath "a.docx") (parsePath "out/b.pdf")).2).any
        Effect.isRename = false) ∧
    (expectedGenerated (parsePath "out") "a" ≠ parsePath "out/b.pdf" →
      Effect.rename (expectedGenerated (parsePath "out") "a")
        (parsePath "out/b.pdf") ∈
        (docx_to_pdf okWorld (parsePath "a.docx") (parsePath "out/b.pdf")).2) :=
  c7_rename_iff_paths_differ okWorld (parsePath "a.docx") (parsePath "out/b.pdf")
    (parsePath "out") "a" rfl rfl rfl (by decide) (by decide) rfl rfl rfl
    (by decide) rfl

/-- C8: with a valid input file and an output parent directory that does not
yet exist, the directory-creation effect is the first effect and the spawn of
the external converter is the second: creation happens before the tool runs. -/
theorem c8_dir_created_before_spawn (w : World) (i o d : RPath)
    (h1 : w.pathExists i = true) (h2 : w.isFile i = true)
    (h3 : (w.pathExists o && w.isDir o) = false)
    (hp : o.parent = some d) (_hnew : w.pathExists d = false)
    (hc : createDirAllOk w d = true)
    (ht1 : w.toStrOk d = true) (ht2 : w.toStrOk i = true) :
    ((docx_to_pdf w i o).2)[0]? = some (.createDirAll d) ∧
    ((docx_to_pdf w i o).2)[1]? = some (.spawn (soArgs d.render i.render)) := by
  unfold docx_to_pdf
  simp only [h1, h2, h3, hp, hc]
  simp [toStr, ht1, ht2]
  repeat' split
  all_goals simp

/-- Witness for C8 at a concrete world (the output directory `out` does not
exist beforehand) and concrete paths. -/
theorem c8_witness :
    ((docx_to_pdf freshDirWorld (parsePath "a.docx")
      (parsePath "out/b.pdf")).2)[0]? =
      some (.createDirAll (parsePath "out")) ∧
    ((docx_to_pdf freshDirWorld (parsePath "a.docx")
      (parsePath "out/b.pdf")).2)[1]? =
      some (.spawn (soArgs (parsePath "out").render (parsePath "a.docx").render)) :=
  c8_dir_created_before_spawn freshDirWorld (parsePath "a.docx")
    (parsePath "out/b.pdf") (parsePath "out") (by decide) (by decide)
    (by decide) (by decide) (by decide) (by decide) (by decide) (by decide)

/-- C9: when the run reaches the argument-building step and the output
directory (checked first) or the input path is not valid UTF-8, `docx_to_pdf`
returns the corresponding invalid-path error and the external converter is
never spawned (the only effect is the preceding directory creation). -/
theorem c9_invalid_utf8_no_spawn (w : World) (i o d : RPath)
    (h1 : w.pathExists i = true) (h2 : w.isFile i = true)
    (h3 : (w.pathExists o && w.isDir o) = false)
    (hp : o.parent = some d) (hc : createDirAllOk w d = true) :
    (w.toStrOk d = false →
      docx_to_pdf w i o = (.error .invalidOutputDir, [.createDirAll d]) ∧
      ((docx_to_pdf w i o).2).any Effect.isSpawn = false) ∧
    (w.toStrOk d = true → w.toStrOk i = false →
      docx_to_pdf w i o = (.error .invalidInputPath, [.createDirAll d]) ∧
      ((docx_to_pdf w i o).2).any Effect.isSpawn = false) := by
  constructor
  · intro ht
    have hmain : docx_to_pdf w i o =
        (.error .invalidOutputDir, [.createDirAll d]) := by
      simp [docx_to_pdf, toStr, h1, h2, h3, hp, hc, ht]
    exact ⟨hmain, by rw [hmain]; rfl⟩
  · intro ht1 ht2
    have hmain : docx_to_pdf w i o =
        (.error .invalidInputPath, [.createDirAll d]) := by
      simp [docx_to_pdf, toStr, h1, h2, h3, hp, hc, ht1, ht2]
    exact ⟨hmain, by rw [hmain]; rfl⟩

/-- Witness for C9 at a concrete world in which no path is valid UTF-8. -/
theorem c9_witness :
    (badUtf8World.toStrOk (parsePath "out") = false →
      docx_to_pdf badUtf8World (parsePath "a.docx") (parsePath "out/b.pdf") =
        (.error .invalidOutputDir, [.createDirAll (parsePath "out")]) ∧
      ((docx_to_pdf badUtf8World (parsePath "a.docx")
        (parsePath "out/b.pdf")).2).any Effect.isSpawn = false) ∧
    (badUtf8World.toStrOk (parsePath "out") = true →
      badUtf8World.toStrOk (parsePath "a.docx") = false →
      docx_to_pdf badUtf8World (parsePath "a.docx") (parsePath "out/b.pdf") =
        (.error .invalidInputPath, [.createDirAll (parsePath "out")]) ∧
      ((docx_to_pdf badUtf8World (parsePath "a.docx")
        (parsePath "out/b.pdf")).2).any Effect.isSpawn = false) :=
  c9_invalid_utf8_no_spawn badUtf8World (parsePath "a.docx")
    (parsePath "out/b.pdf") (parsePath "out") rfl rfl rfl (by decide) (by decide)

/-- Helper for C10: whenever the output path does have a parent, the
no-parent-directory error can never be the result, whatever the input checks
and the rest of the run do. -/
theorem result_ne_noParentDir (w : World) (i o d : RPath)
    (hp : o.parent = some d) :
    (docx_to_pdf w i o).1 ≠ .error .noParentDir := by
  unfold docx_to_pdf
  rw [hp]
  repeat' split
  all_goals simp_all

/-- C10: with the input checks passed and the output path not an existing
directory, the no-parent-directory error is returned exactly when
`Path::parent` of the output path is `none` (the empty path or a root path);
a bare relative file name such as `document.pdf` has the empty path as
parent, so it does not trigger this error and the run proceeds with the empty
string as the converter's `--outdir` argument (the call in src/main.rs). -/
theorem c10_no_parent_iff (w : World) (i o : RPath)
    (h1 : w.pathExists i = true) (h2 : w.isFile i = true)
    (h3 : (w.pathExists o && w.isDir o) = false) :
    ((docx_to_pdf w i o).1 = .error .noParentDir ↔ o.parent = none) ∧
    (parsePath "document.pdf").parent = some ⟨false, []⟩ ∧
    docx_to_pdf okWorld (parsePath "document.docx") (parsePath "document.pdf") =
      (.ok (), [.createDirAll ⟨false, []⟩, .spawn (soArgs "" "document.docx")]) := by
  refine ⟨?_, rfl, rfl⟩
  constructor
  · intro hres
    cases hpar : o.parent with
    | none => rfl
    | some d => exact absurd hres (result_ne_noParentDir w i o d hpar)
  · intro hpar
    simp [docx_to_pdf, h1, h2, h3, hpar]

/-- Witness for C10 at a concrete world, a concrete input and the root path
as output (whose parent is `none`). -/
theorem c10_witness :
    ((docx_to_pdf okWorld (parsePath "a.docx") (parsePath "/")).1 =
        .error .noParentDir ↔ (parsePath "/").parent = none) ∧
    (parsePath "document.pdf").parent = some ⟨false, []⟩ ∧
    docx_to_pdf okWorld (parsePath "document.docx") (parsePath "document.pdf") =
      (.ok (), [.createDirAll ⟨false, []⟩, .spawn (soArgs "" "document.docx")]) :=
  c10_no_parent_iff okWorld (parsePath "a.docx") (parsePath "/") rfl rfl rfl

/-- C1 counterexample: for the input `D/archive.tar.docx` (stem
`archive.tar`, which contains a dot) and requested output `D/out/final.pdf`,
the code's expected generated path is `D/out/archive.pdf` — the stem with its
own last extension replaced — and not `D/out/archive.tar.pdf`, the stem with
`.pdf` appended as the claim states; the full run renames from
`D/out/archive.pdf`. -/
theorem c1_counterexample :
    (parsePath "D/archive.tar.docx").fileStem = some "archive.tar" ∧
    expectedGenerated (parsePath "D/out") "archive.tar" =
      parsePath "D/out/archive.pdf" ∧
    expectedGenerated (parsePath "D/out") "archive.tar" ≠
      parsePath "D/out/archive.tar.pdf" ∧
    (docx_to_pdf okWorld (parsePath "D/archive.tar.docx")
      (parsePath "D/out/final.pdf")).2 =
      [.createDirAll (parsePath "D/out"),
        .spawn (soArgs "D/out" "D/archive.tar.docx"),
        .rename (parsePath "D/out/archive.pdf") (parsePath "D/out/final.pdf")] := by
  refine ⟨rfl, rfl, by decide, rfl⟩

/-- C1 as amended: the expected generated path is the output directory joined
with the input's stem with the stem's own last extension replaced by `pdf`;
when the stem contains no dot this coincides with the spec's formula — the
output directory joined with the stem with `.pdf` appended (so for
`report.docx` and output directory `D/out` it is `D/out/report.pdf`). -/
theorem c1_expected_path (d i : RPath) (stem : String)
    (_hstem : i.fileStem = some stem)
    (hdot : '.' ∉ stem.data) (_hsl : '/' ∉ stem.data) :
    expectedGenerated d stem = specExpectedGenerated d stem ∧
    expectedGenerated d stem =
      ⟨d.absolute, d.comps ++ [.normal (stem ++ ".pdf")]⟩ := by
  have hnd : stem ≠ "." := by
    intro h
    rw [h] at hdot
    exact hdot (by decide)
  have hnd2 : stem ≠ ".." := by
    intro h
    rw [h] at hdot
    exact hdot (by decide)
  have hjoin : d.join1 stem = ⟨d.absolute, d.comps ++ [.normal stem]⟩ := by
    rw [RPath.join1]
    simp [hnd, hnd2]
  have hsplit : lastDotSplit stem.data = none := (lastDotSplit_eq_none _).mpr hdot
  have hstem2 :
      (RPath.mk d.absolute (d.comps ++ [.normal stem])).fileStem = some stem := by
    simp [RPath.fileStem, RPath.fileName, List.getLast?_concat, hnd2, hsplit]
  have hexp : expectedGenerated d stem =
      ⟨d.absolute, d.comps ++ [.normal (stem ++ ".pdf")]⟩ := by
    rw [expectedGenerated, hjoin, RPath.withExtension, hstem2]
    simp [List.dropLast_concat, append_dot_pdf]
  have hspec : specExpectedGenerated d stem =
      ⟨d.absolute, d.comps ++ [.normal (stem ++ ".pdf")]⟩ := by
    rw [specExpectedGenerated, RPath.join1]
    simp [(append_pdf_ne stem).1, (append_pdf_ne stem).2]
  exact ⟨hexp.trans hspec.symm, hexp⟩

/-- Witness for the amended C1 at the spec's own end-to-end example: input
`D/report.docx`, output directory `D/out`, expected path `D/out/report.pdf`. -/
theorem c1_witness :
    expectedGenerated (parsePath "D/out") "report" =
      specExpectedGenerated (parsePath "D/out") "report" ∧
    expectedGenerated (parsePath "D/out") "report" =
      ⟨(parsePath "D/out").absolute,
        (parsePath "D/out").comps ++ [.normal ("report" ++ ".pdf")]⟩ :=
  c1_expected_path (parsePath "D/out") (parsePath "D/report.docx") "report"
    (by decide) (by decide) (by decide)

/-- C2 counterexample: in a world where the spawn itself fails,
`docx_to_pdf` returns the propagated launch I/O error, which is not the
exit-code ("Conversion failed with exit code") error the claim identifies it
with — the two are distinct error values of the code. -/
theorem c2_counterexample :
    (docx_to_pdf spawnFailWorld (parsePath "a.docx") (parsePath "out/b.pdf")).1 =
      .error .spawnError ∧
    ConvError.isExitFailure .spawnError = false ∧
    ConvError.spawnError ≠ ConvError.exitFailure (some 1) ∧
    ConvError.spawnError ≠ ConvError.exitFailure none := by
  refine ⟨rfl, rfl, by decide, by decide⟩

/-- C2 as amended: when the spawn itself fails, `docx_to_pdf` returns an
error — the propagated launch I/O error — but it is a distinct error from the
exit-code error produced by a non-success exit status, not the same failure
mode. -/
theorem c2_spawn_failure_distinct_error (w : World) (i o d : RPath)
    (h1 : w.pathExists i = true) (h2 : w.isFile i = true)
    (h3 : (w.pathExists o && w.isDir o) = false)
    (hp : o.parent = some d) (hc : createDirAllOk w d = true)
    (ht1 : w.toStrOk d = true) (ht2 : w.toStrOk i = true)
    (hs : w.spawnStatus = none) :
    (docx_to_pdf w i o).1 = .error .spawnError ∧
    ((docx_to_pdf w i o).1 ≠ .error (.exitFailure none)) ∧
    (∀ c : Option Int, (docx_to_pdf w i o).1 ≠ .error (.exitFailure c)) := by
  have hmain : (docx_to_pdf w i o).1 = .error .spawnError := by
    simp [docx_to_pdf, toStr, h1, h2, h3, hp, hc, ht1, ht2, hs]
  refine ⟨hmain, ?_, ?_⟩
  · rw [hmain]
    simp
  · intro c
    rw [hmain]
    simp

/-- Witness for the amended C2 at a concrete world in which the spawn fails. -/
theorem c2_witness :
    (docx_to_pdf spawnFailWorld (parsePath "in.docx") (parsePath "o/x.pdf")).1 =
      .error .spawnError ∧
    ((docx_to_pdf spawnFailWorld (parsePath "in.docx") (parsePath "o/x.pdf")).1 ≠
      .error (.exitFailure none)) ∧
    (∀ c : Option Int,
      (docx_to_pdf spawnFailWorld (parsePath "in.docx") (parsePath "o/x.pdf")).1 ≠
        .error (.exitFailure c)) :=
  c2_spawn_failure_distinct_error spawnFailWorld (parsePath "in.docx")
    (parsePath "o/x.pdf") (parsePath "o") rfl rfl rfl (by decide) (by decide)
    rfl rfl rfl

end Ditto
